import Mathlib

/-!
Shallow embedding of the SENSEI `VTKUtils` layer (`src/sensei/VTKUtils.h`).

The header provides: a layout-agnostic array accessor (`GetPointer`), the
composite traversal engine (`Apply`), association-name parsing
(`GetAssociation` / `GetAttributesName`), ghost-layer auxiliary metadata
(`SetGhostLayerMetadata` / `GetGhostLayerMetadata`), the collective metadata
merge (`GetMetadata`) and pure classification predicates over `MeshMetadata`
(`AMR`, `Structured`, `Polydata`, `Unstructured`, `StretchedCartesian`,
`UniformCartesian`, `LogicallyCartesian`).

The classification predicates and `GetPointer` are embedded directly from
the header's inline bodies.  The implementations of `Apply`,
`GetAssociation`, the ghost-layer functions and the `GetMetadata` merge are
declared in the header but implemented in a translation unit that is not
part of the source tree, so those are modelled from the specification, as
marked in their doc comments.  The external VTK array storage classes
(`vtkAOSDataArrayTemplate`, `vtkSOADataArrayTemplate`) are modelled from the
specification's data model: interleaved layout is one element-major buffer,
separated layout is one buffer per component.
-/

namespace sensei

namespace VTKUtils

/-- VTK data object type code for polygonal data. -/
def VTK_POLY_DATA : Int := 0

/-- VTK data object type code for a curvilinear structured grid. -/
def VTK_STRUCTURED_GRID : Int := 2

/-- VTK data object type code for a rectilinear (stretched Cartesian) grid. -/
def VTK_RECTILINEAR_GRID : Int := 3

/-- VTK data object type code for an unstructured grid. -/
def VTK_UNSTRUCTURED_GRID : Int := 4

/-- VTK data object type code for image data (uniform Cartesian). -/
def VTK_IMAGE_DATA : Int := 6

/-- VTK data object type code for a uniform grid. -/
def VTK_UNIFORM_GRID : Int := 10

/-- VTK data object type code for non-overlapping AMR. -/
def VTK_NON_OVERLAPPING_AMR : Int := 30

/-- VTK data object type code for overlapping AMR. -/
def VTK_OVERLAPPING_AMR : Int := 31

/-- The slice of the `MeshMetadata` descriptor consulted by the
classification predicates of `VTKUtils.h`: the global mesh kind and the
global block kind, both VTK data object type codes. -/
structure MeshMetadata where
  MeshType : Int
  BlockType : Int
  deriving DecidableEq

/-- Return true if the mesh or block type is AMR (`VTKUtils.h` 121-125).
The body tests only `MeshType`. -/
def AMR (md : MeshMetadata) : Bool :=
  (md.MeshType == VTK_OVERLAPPING_AMR) ||
    (md.MeshType == VTK_NON_OVERLAPPING_AMR)

/-- Return true if the mesh or block type is structured (`VTKUtils.h` 128-132). -/
def Structured (md : MeshMetadata) : Bool :=
  (md.BlockType == VTK_STRUCTURED_GRID) ||
    (md.MeshType == VTK_STRUCTURED_GRID)

/-- Return true if the mesh or block type is polydata (`VTKUtils.h` 135-138). -/
def Polydata (md : MeshMetadata) : Bool :=
  (md.BlockType == VTK_POLY_DATA) || (md.MeshType == VTK_POLY_DATA)

/-- Return true if the mesh or block type is unstructured (`VTKUtils.h` 141-145). -/
def Unstructured (md : MeshMetadata) : Bool :=
  (md.BlockType == VTK_UNSTRUCTURED_GRID) ||
    (md.MeshType == VTK_UNSTRUCTURED_GRID)

/-- Return true if the mesh or block type is stretched Cartesian
(`VTKUtils.h` 148-152). -/
def StretchedCartesian (md : MeshMetadata) : Bool :=
  (md.BlockType == VTK_RECTILINEAR_GRID) ||
    (md.MeshType == VTK_RECTILINEAR_GRID)

/-- Return true if the mesh or block type is uniform Cartesian
(`VTKUtils.h` 155-159). -/
def UniformCartesian (md : MeshMetadata) : Bool :=
  (md.BlockType == VTK_IMAGE_DATA) || (md.MeshType == VTK_IMAGE_DATA)
    || (md.BlockType == VTK_UNIFORM_GRID) || (md.MeshType == VTK_UNIFORM_GRID)

/-- Return true if the mesh or block type is logically Cartesian
(`VTKUtils.h` 162-165): the disjunction of the three Cartesian predicates. -/
def LogicallyCartesian (md : MeshMetadata) : Bool :=
  Structured md || UniformCartesian md || StretchedCartesian md

/-- The element kinds dispatched by the `vtkTemplateMacroFP` macro of
`VTKUtils.h` (`VTK_DOUBLE` and `VTK_FLOAT`); `GetPointer` is instantiated at
one of these, and a dynamic cast succeeds only when the array's element kind
matches the instantiation. -/
inductive ElemKind where
  | float32
  | float64
  deriving DecidableEq

/-- A `vtkDataArray` handle, modelled from the data model of the
specification over an abstract value carrier `α`: interleaved (AOS) layout
is one element-major buffer, separated (SOA) layout is one buffer per
component; `other` stands for any concrete array class that is neither of
the two template classes `GetPointer` casts to, and `nullPtr` is a null
handle. -/
inductive DataArray (α : Type) where
  | nullPtr : DataArray α
  | aos (kind : ElemKind) (numComps : Nat) (buffer : List α) : DataArray α
  | soa (kind : ElemKind) (numComps : Nat) (buffers : List (List α)) : DataArray α
  | other (className : String) : DataArray α
  deriving DecidableEq

/-- The `GetClassName` virtual call on a `vtkDataArray` handle: defined for
every live object, undefined (`none`) on a null handle. -/
def GetClassName : DataArray α → Option String
  | .nullPtr => none
  | .aos _ _ _ => some "vtkAOSDataArrayTemplate"
  | .soa _ _ _ => some "vtkSOADataArrayTemplate"
  | .other c => some c

/-- The `dynamic_cast` to `vtkAOSDataArrayTemplate<VTK_TT>` performed by
`GetPointer` (`VTKUtils.h` line 48): succeeds exactly on an AOS array of
the requested element kind, yielding its component count and buffer. -/
def castAOS (T : ElemKind) : DataArray α → Option (Nat × List α)
  | .aos k n buf => if k = T then some (n, buf) else none
  | _ => none

/-- The `dynamic_cast` to `vtkSOADataArrayTemplate<VTK_TT>` performed by
`GetPointer` (`VTKUtils.h` line 52): succeeds exactly on an SOA array of
the requested element kind, yielding its component count and buffers. -/
def castSOA (T : ElemKind) : DataArray α → Option (Nat × List (List α))
  | .soa k n bufs => if k = T then some (n, bufs) else none
  | _ => none

/-- One step per element: the heads of every per-component buffer, in
component order, followed by the export of the tails; `fuel` is the number
of elements still to emit. -/
def soaExportAux : Nat → List (List α) → List α
  | 0, _ => []
  | fuel + 1, bufs =>
    bufs.filterMap List.head? ++ soaExportAux fuel (bufs.map List.tail)

/-- The element-major sequence reachable through the pointer returned by
`vtkSOADataArrayTemplate::GetPointer(0)`, modelled from the data model of
the specification: component values of element 0, then of element 1, and so
on; for a single-component array this is the component buffer itself. -/
def soaExport (bufs : List (List α)) : List α :=
  soaExportAux ((bufs.head?.map List.length).getD 0) bufs

/-- The guarded class-name expression of the error report in `GetPointer`
(`VTKUtils.h` line 58): `da ? da->GetClassName() : "nullptr"` — the null
test protects the virtual call. -/
def guardedClassName (da : DataArray α) : String :=
  match da with
  | .nullPtr => "nullptr"
  | d => (GetClassName d).getD ""

/-- The full body of `GetPointer<VTK_TT>` (`VTKUtils.h` 39-60): try the AOS
cast, then the SOA cast, returning the sequence reachable through the
returned pointer; when both casts fail emit the `SENSEI_ERROR` message and
return a null pointer.  The first component is the dereferenced sequence
(`none` models `nullptr`), the second the emitted error message, if any. -/
def GetPointerFull (T : ElemKind) (da : DataArray α) :
    Option (List α) × Option String :=
  match castAOS T da with
  | some p => (some p.2, none)
  | none =>
    match castSOA T da with
    | some p => (some (soaExport p.2), none)
    | none => (none, some ("Invalid vtkDataArray " ++ guardedClassName da))

/-- The value returned by `GetPointer<VTK_TT>`, as the sequence dereferenced
over the element range (`none` models returning `nullptr`). -/
def GetPointer (T : ElemKind) (da : DataArray α) : Option (List α) :=
  (GetPointerFull T da).1

/-- Modelled from the spec: the traversal performed by
`Apply(vtkDataObject*, DatasetFunction&)` (`VTKUtils.h` 95-97; the
implementation is in a translation unit not in the source tree).  The
collection is the flat, ascending block-index sequence of block slots; a
`none` slot is a block the rank does not locally own, skipped without
altering the index sequence.  The callback returns an integer: 0 continues,
a non-zero code stops immediately and is propagated; a negative code is
additionally treated as an error.  The result is the list of leaves visited
in order, the overall return code, and whether an error was flagged. -/
def ApplyRun {α : Type} (func : α → Int) : List (Option α) → List α × Int × Bool
  | [] => ([], 0, false)
  | none :: rest => ApplyRun func rest
  | some d :: rest =>
    let r := func d
    if r = 0 then
      let p := ApplyRun func rest
      (d :: p.1, p.2)
    else ([d], r, decide (r < 0))

/-- Modelled from the spec: the overall return code of `Apply`. -/
def Apply {α : Type} (coll : List (Option α)) (func : α → Int) : Int :=
  (ApplyRun func coll).2.1

/-- Modelled from the spec: a mesh object's auxiliary, non-geometric
metadata store — the part of a `vtkDataObject` consulted by the ghost-layer
functions (`VTKUtils.h` 100-106, implementation not in the source tree) —
as named integer entries, most recent first. -/
structure MeshObject where
  info : List (String × Int)
  deriving DecidableEq

/-- Modelled from the spec: `SetGhostLayerMetadata` writes the two named
counts into the mesh's auxiliary metadata store, overwriting (shadowing)
any prior value, and always succeeds. -/
def SetGhostLayerMetadata (mesh : MeshObject)
    (nGhostCellLayers nGhostNodeLayers : Int) : MeshObject :=
  ⟨("nGhostCellLayers", nGhostCellLayers) ::
    ("nGhostNodeLayers", nGhostNodeLayers) :: mesh.info⟩

/-- Modelled from the spec: `GetGhostLayerMetadata` reads both counts back;
`none` is the distinguished non-zero "not found" return used when no
descriptor was ever attached, and no default counts are invented. -/
def GetGhostLayerMetadata (mesh : MeshObject) : Option (Int × Int) :=
  match mesh.info.lookup "nGhostCellLayers",
      mesh.info.lookup "nGhostNodeLayers" with
  | some c, some n => some (c, n)
  | _, _ => none

/-- The association of an array with the mesh geometry: one value per
point, one value per cell, or no geometric index space at all. -/
inductive Assoc where
  | point
  | cell
  | field
  deriving DecidableEq

/-- Modelled from the spec: `GetAssociation` (`VTKUtils.h` line 73,
implementation not in the source tree) parses exactly the three
case-sensitive spellings `"point"`, `"cell"` and `"field"`; anything else
is a parse failure returning the distinguished no-association result
`none`. -/
def GetAssociation (assocStr : String) : Option Assoc :=
  if assocStr = "point" then some Assoc.point
  else if assocStr = "cell" then some Assoc.cell
  else if assocStr = "field" then some Assoc.field
  else none

/-- Modelled from the spec: `GetAttributesName` (`VTKUtils.h` line 76)
returns the external spelling of an association, total over the three
values and the exact inverse of `GetAssociation`. -/
def GetAttributesName : Assoc → String
  | Assoc.point => "point"
  | Assoc.cell => "cell"
  | Assoc.field => "field"

/-- An array tuple recorded in `MeshMetadata`: name, association, element
kind and component count, as described by the specification's data model. -/
structure ArrayTup where
  name : String
  assoc : Assoc
  kind : ElemKind
  comps : Nat
  deriving DecidableEq

/-- The deduplication key of the array-tuple merge: two tuples collide when
they agree on array name and association. -/
def keyMatch (t : ArrayTup) : ArrayTup → Bool :=
  fun u => u.name == t.name && u.assoc == t.assoc

/-- Modelled from the spec: one step of the array-tuple merge of the
collective `GetMetadata` phase (`VTKUtils.h` 110-111, implementation not in
the source tree).  A tuple whose (name, association) key is new is added to
the union; a tuple whose key is present must agree on element kind and
component count, otherwise the merge fails; a failure is sticky. -/
def insertArrayTup : Except String (List ArrayTup) → ArrayTup →
    Except String (List ArrayTup)
  | Except.error e, _ => Except.error e
  | Except.ok ts, t =>
    match ts.find? (keyMatch t) with
    | some u =>
      if u.kind = t.kind ∧ u.comps = t.comps then Except.ok ts
      else Except.error ("array " ++ t.name ++ " kind or component mismatch")
    | none => Except.ok (ts ++ [t])

/-- Modelled from the spec: the array-tuple set of the merged
`MeshMetadata` is the union across ranks of the gathered per-rank tuple
lists, deduplicated by (name, association); disagreement on element kind or
component count for one key is a merge failure. -/
def mergeArrayTups (gathered : List (List ArrayTup)) :
    Except String (List ArrayTup) :=
  gathered.flatten.foldl insertArrayTup (Except.ok [])

/-- Modelled from the spec: the outcome of the collective array-tuple merge
as observed by one participating rank.  The collective step gathers the
same per-rank descriptor list on every rank, and each rank applies the same
deterministic merge rules to it, so the rank number cannot influence the
result. -/
def GetMetadataArrayMerge (gathered : List (List ArrayTup)) (_rank : Nat) :
    Except String (List ArrayTup) :=
  mergeArrayTups gathered

/-- Whether a merge outcome is the reported failure. -/
def mergeFailed : Except String (List ArrayTup) → Bool
  | Except.error _ => true
  | Except.ok _ => false

end VTKUtils

end sensei

namespace sensei

namespace VTKUtils

/-- C7: for every `MeshMetadata` value, `LogicallyCartesian` is true exactly
when `Structured`, `UniformCartesian` or `StretchedCartesian` is true, and
it is computed as that single derived disjunction of the three predicates. -/
theorem C7_logicallyCartesian_is_disjunction (md : MeshMetadata) :
    LogicallyCartesian md
      = (Structured md || UniformCartesian md || StretchedCartesian md)
    ∧ (LogicallyCartesian md = true ↔
        (Structured md = true ∨ UniformCartesian md = true ∨
          StretchedCartesian md = true)) := by
  refine ⟨rfl, ?_⟩
  simp [LogicallyCartesian, or_assoc]

/-- C9: `AMR` depends only on `MeshType`: it is invariant under changes of
`BlockType`, it is true exactly when `MeshType` is one of the two AMR codes,
it is false when `BlockType` is an AMR kind but `MeshType` is not, and —
unlike `AMR` — each of the five other classification predicates can be made
true through `BlockType` alone. -/
theorem C9_AMR_tests_only_meshType (md md2 : MeshMetadata)
    (h : md.MeshType = md2.MeshType) :
    AMR md = AMR md2
    ∧ (AMR md = true ↔
        (md.MeshType = VTK_OVERLAPPING_AMR ∨
          md.MeshType = VTK_NON_OVERLAPPING_AMR))
    ∧ AMR ⟨VTK_UNSTRUCTURED_GRID, VTK_OVERLAPPING_AMR⟩ = false
    ∧ AMR ⟨VTK_UNSTRUCTURED_GRID, VTK_NON_OVERLAPPING_AMR⟩ = false
    ∧ Structured ⟨VTK_UNSTRUCTURED_GRID, VTK_STRUCTURED_GRID⟩ = true
    ∧ Polydata ⟨VTK_UNSTRUCTURED_GRID, VTK_POLY_DATA⟩ = true
    ∧ Unstructured ⟨VTK_POLY_DATA, VTK_UNSTRUCTURED_GRID⟩ = true
    ∧ StretchedCartesian ⟨VTK_UNSTRUCTURED_GRID, VTK_RECTILINEAR_GRID⟩ = true
    ∧ UniformCartesian ⟨VTK_UNSTRUCTURED_GRID, VTK_IMAGE_DATA⟩ = true := by
  refine ⟨?_, ?_, by decide, by decide, by decide, by decide, by decide,
    by decide, by decide⟩
  · simp [AMR, h]
  · simp [AMR, VTK_OVERLAPPING_AMR, VTK_NON_OVERLAPPING_AMR]

/-- Witness for C9 at a concrete input: two descriptors sharing an AMR
`MeshType` but differing in `BlockType` classify identically. -/
theorem C9_AMR_tests_only_meshType_witness :
    AMR ⟨VTK_OVERLAPPING_AMR, VTK_POLY_DATA⟩
      = AMR ⟨VTK_OVERLAPPING_AMR, VTK_UNSTRUCTURED_GRID⟩ :=
  (C9_AMR_tests_only_meshType ⟨VTK_OVERLAPPING_AMR, VTK_POLY_DATA⟩
    ⟨VTK_OVERLAPPING_AMR, VTK_UNSTRUCTURED_GRID⟩ rfl).1

/-- The element-major export of a single-component separated array is its
one component buffer. -/
theorem soaExport_singleton (l : List α) : soaExport [l] = l := by
  suffices h : ∀ l : List α, soaExportAux l.length [l] = l by
    simpa [soaExport] using h l
  intro l
  induction l with
  | nil => rfl
  | cons a as ih => simpa [soaExportAux] using ih

/-- C1: a single-component array with logical contents `buf` stored in
interleaved (AOS) layout and in separated (SOA) layout yields, through
`GetPointer`, pointers whose dereferenced sequences over the element range
are identical — both are `buf`. -/
theorem C1_getPointer_layout_agnostic {α : Type} (T : ElemKind) (buf : List α) :
    GetPointer T (DataArray.aos T 1 buf) = GetPointer T (DataArray.soa T 1 [buf])
    ∧ GetPointer T (DataArray.aos T 1 buf) = some buf := by
  have haos : GetPointer T (DataArray.aos T 1 buf) = some buf := by
    simp [GetPointer, GetPointerFull, castAOS]
  have hsoa : GetPointer T (DataArray.soa T 1 [buf]) = some buf := by
    simp [GetPointer, GetPointerFull, castAOS, castSOA, soaExport_singleton]
  exact ⟨haos.trans hsoa.symm, haos⟩

/-- C10: `GetPointer` on a null array handle is safe: both dynamic casts
fail, the error message takes the guarded `"nullptr"` branch even though
`GetClassName` is undefined on a null handle, and the function returns a
null pointer. -/
theorem C10_getPointer_null_safe {α : Type} (T : ElemKind) :
    castAOS T (DataArray.nullPtr : DataArray α) = none
    ∧ castSOA T (DataArray.nullPtr : DataArray α) = none
    ∧ GetPointerFull T (DataArray.nullPtr : DataArray α)
        = (none, some "Invalid vtkDataArray nullptr")
    ∧ GetClassName (DataArray.nullPtr : DataArray α) = none :=
  ⟨rfl, rfl, rfl, rfl⟩

/-- C8 counterexample: a two-component separated (SOA) array of the
requested element kind is not rejected — `GetPointer` returns a non-null
pointer to the element-major export and emits no error message, contrary to
the claim that multi-component separated arrays are reported and yield a
null result. -/
theorem C8_counterexample :
    GetPointerFull ElemKind.float64
        (DataArray.soa ElemKind.float64 2 [[(1 : Int), 2], [3, 4]])
      = (some [1, 3, 2, 4], none) := by
  decide

/-- C8 (amended): for every array argument on which both dynamic casts fail
— it is neither a recognized interleaved (AOS) nor a recognized separated
(SOA) layout for the requested element kind, including a null handle —
`GetPointer` reports the error immediately and returns a null result. -/
theorem C8_invalid_layout_error {α : Type} (T : ElemKind) (da : DataArray α)
    (hAOS : castAOS T da = none) (hSOA : castSOA T da = none) :
    (GetPointerFull T da).1 = none
    ∧ ((GetPointerFull T da).2).isSome = true := by
  simp [GetPointerFull, hAOS, hSOA]

/-- C3: for a callback that always returns 0, `Apply` visits every locally
present leaf exactly once, in ascending block-index order — the visit trace
is exactly the sequence of present leaves — and returns 0 with no error
flagged. -/
theorem C3_apply_visits_every_leaf {α : Type} (coll : List (Option α))
    (func : α → Int) (h : ∀ d, func d = 0) :
    ApplyRun func coll = (coll.reduceOption, 0, false)
    ∧ Apply coll func = 0 := by
  have main : ApplyRun func coll = (coll.reduceOption, 0, false) := by
    induction coll with
    | nil => rfl
    | cons o rest ih =>
      cases o with
      | none => simpa [ApplyRun, List.reduceOption_cons_of_none] using ih
      | some d => simp [ApplyRun, h d, List.reduceOption_cons_of_some, ih]
  exact ⟨main, by simp [Apply, main]⟩

/-- Witness for C3 at a concrete input: a three-slot collection with one
unowned slot is traversed completely, visiting its two leaves in order. -/
theorem C3_apply_visits_every_leaf_witness :
    ApplyRun (fun _ => (0 : Int)) [some (1 : Int), none, some 2]
        = ([1, 2], 0, false)
    ∧ Apply [some (1 : Int), none, some 2] (fun _ => (0 : Int)) = 0 :=
  C3_apply_visits_every_leaf [some 1, none, some 2] (fun _ => 0)
    (fun _ => rfl)

/-- C2: when the present leaves split as `pre ++ d :: post` with the
callback returning 0 on every leaf of `pre` and a non-zero code `c` on `d`
(so `d`, at leaf index `pre.length`, is the first leaf with a non-zero
code), `Apply` visits exactly `pre ++ [d]` — leaves `0..k` inclusive, none
rolled back — stops before `post`, returns `c` as the overall code, and
flags an error exactly when `c` is negative. -/
theorem C2_apply_first_nonzero_stops {α : Type} (coll : List (Option α))
    (func : α → Int) (pre : List α) (d : α) (post : List α) (c : Int)
    (hsplit : coll.reduceOption = pre ++ d :: post)
    (h0 : ∀ x ∈ pre, func x = 0) (hc : func d = c) (hne : c ≠ 0) :
    ApplyRun func coll = (pre ++ [d], c, decide (c < 0))
    ∧ Apply coll func = c := by
  have main : ApplyRun func coll = (pre ++ [d], c, decide (c < 0)) := by
    induction coll generalizing pre with
    | nil => simp [List.reduceOption_nil] at hsplit
    | cons o rest ih =>
      cases o with
      | none =>
        rw [List.reduceOption_cons_of_none] at hsplit
        simpa [ApplyRun] using ih pre hsplit h0
      | some a =>
        rw [List.reduceOption_cons_of_some] at hsplit
        cases pre with
        | nil =>
          rw [List.nil_append] at hsplit
          obtain ⟨ha, _⟩ := List.cons_eq_cons.mp hsplit
          subst ha
          simp [ApplyRun, hc, hne]
        | cons p ps =>
          rw [List.cons_append] at hsplit
          obtain ⟨ha, htail⟩ := List.cons_eq_cons.mp hsplit
          subst ha
          have hp : func a = 0 := h0 a (List.mem_cons_self a ps)
          have hrec := ih ps htail (fun x hx => h0 x (List.mem_cons_of_mem a hx))
          simp [ApplyRun, hp, hrec]
  exact ⟨main, by simp [Apply, main]⟩

/-- Witness for C2 at a concrete input: the callback returns 5 on the
second present leaf; traversal visits the first two present leaves, skips
the rest, returns 5, and no error is flagged. -/
theorem C2_apply_first_nonzero_stops_witness :
    ApplyRun (fun x => if x = 2 then (5 : Int) else 0)
        [some (1 : Int), none, some 2, some 3] = ([1, 2], 5, false)
    ∧ Apply [some (1 : Int), none, some 2, some 3]
        (fun x => if x = 2 then (5 : Int) else 0) = 5 :=
  C2_apply_first_nonzero_stops [some 1, none, some 2, some 3]
    (fun x => if x = 2 then 5 else 0) [1] 2 [3] 5 (by decide)
    (by decide) (by decide) (by decide)

/-- Witness for the amended C8 at a concrete input: an array of an
unrecognized class is rejected with an error report and a null result. -/
theorem C8_invalid_layout_error_witness :
    (GetPointerFull ElemKind.float64
        (DataArray.other "vtkBitArray" : DataArray Int)).1 = none
    ∧ ((GetPointerFull ElemKind.float64
        (DataArray.other "vtkBitArray" : DataArray Int)).2).isSome = true :=
  C8_invalid_layout_error ElemKind.float64 (DataArray.other "vtkBitArray")
    rfl rfl

/-- C5: for every mesh object, setting the ghost-layer counts and reading
them back succeeds and yields exactly the counts that were set, while on a
mesh whose auxiliary store was never written the read returns the
distinguished not-found outcome, not default zero counts. -/
theorem C5_ghost_metadata_roundtrip (mesh : MeshObject) (c n : Int) :
    GetGhostLayerMetadata (SetGhostLayerMetadata mesh c n) = some (c, n)
    ∧ GetGhostLayerMetadata ⟨[]⟩ = none
    ∧ GetGhostLayerMetadata ⟨[]⟩ ≠ some (0, 0) := by
  refine ⟨?_, rfl, by decide⟩
  simp [SetGhostLayerMetadata, GetGhostLayerMetadata, List.lookup_cons]

/-- C6: association parsing accepts exactly the three case-sensitive
spellings `"point"`, `"cell"` and `"field"`, each mapped to its value;
`"Cell"` and every other string fail with the distinguished no-association
result; and converting a parsed association back to its name returns the
original string for all three valid spellings. -/
theorem C6_association_parse_roundtrip (s : String) :
    GetAssociation "point" = some Assoc.point
    ∧ GetAssociation "cell" = some Assoc.cell
    ∧ GetAssociation "field" = some Assoc.field
    ∧ GetAssociation "Cell" = none
    ∧ ((GetAssociation s).isSome = true ↔
        (s = "point" ∨ s = "cell" ∨ s = "field"))
    ∧ (∀ a : Assoc, GetAssociation (GetAttributesName a) = some a)
    ∧ (GetAssociation "point").map GetAttributesName = some "point"
    ∧ (GetAssociation "cell").map GetAttributesName = some "cell"
    ∧ (GetAssociation "field").map GetAttributesName = some "field" := by
  refine ⟨rfl, rfl, rfl, rfl, ?_, ?_, rfl, rfl, rfl⟩
  · unfold GetAssociation
    split_ifs <;> simp_all
  · intro a
    cases a <;> rfl

/-- A failed merge stays failed through every later insertion. -/
theorem foldl_insertArrayTup_error (l : List ArrayTup) (e : String) :
    l.foldl insertArrayTup (Except.error e) = Except.error e := by
  induction l with
  | nil => rfl
  | cons t l ih => simpa [insertArrayTup] using ih

/-- A successful insertion only appends to the union built so far. -/
theorem insertArrayTup_ok_append {ts ts' : List ArrayTup} {t : ArrayTup}
    (h : insertArrayTup (Except.ok ts) t = Except.ok ts') :
    ∃ r, ts' = ts ++ r := by
  simp only [insertArrayTup] at h
  split at h
  · split_ifs at h
    refine ⟨[], ?_⟩
    rw [List.append_nil]
    exact (Except.ok.inj h).symm
  · exact ⟨[t], (Except.ok.inj h).symm⟩

/-- A successful merge fold only appends to the union built so far. -/
theorem foldl_insertArrayTup_ok_append {l ts ts' : List ArrayTup}
    (h : l.foldl insertArrayTup (Except.ok ts) = Except.ok ts') :
    ∃ r, ts' = ts ++ r := by
  induction l generalizing ts with
  | nil =>
    refine ⟨[], ?_⟩
    rw [List.append_nil]
    exact (Except.ok.inj h).symm
  | cons t l ih =>
    rw [List.foldl_cons] at h
    cases hstep : insertArrayTup (Except.ok ts) t with
    | error e =>
      rw [hstep, foldl_insertArrayTup_error] at h
      simp at h
    | ok ts1 =>
      rw [hstep] at h
      obtain ⟨r1, hr1⟩ := insertArrayTup_ok_append hstep
      obtain ⟨r2, hr2⟩ := ih h
      exact ⟨r1 ++ r2, by rw [hr2, hr1, List.append_assoc]⟩

/-- In a successful merge fold, every inserted tuple has a representative
under its (name, association) key in the final union, agreeing with it on
element kind and component count. -/
theorem foldl_insertArrayTup_mem_key {l ts ts' : List ArrayTup}
    (h : l.foldl insertArrayTup (Except.ok ts) = Except.ok ts') :
    ∀ t ∈ l, ∃ u, ts'.find? (keyMatch t) = some u
      ∧ u.kind = t.kind ∧ u.comps = t.comps := by
  induction l generalizing ts with
  | nil =>
    intro t ht
    cases ht
  | cons t0 l ih =>
    intro t ht
    rw [List.foldl_cons] at h
    cases hstep : insertArrayTup (Except.ok ts) t0 with
    | error e =>
      rw [hstep, foldl_insertArrayTup_error] at h
      simp at h
    | ok ts1 =>
      rw [hstep] at h
      rcases List.mem_cons.mp ht with rfl | hmem
      · obtain ⟨r, hr⟩ := foldl_insertArrayTup_ok_append h
        simp only [insertArrayTup] at hstep
        split at hstep
        · rename_i u hf
          split_ifs at hstep with hk
          have hts1 : ts1 = ts := (Except.ok.inj hstep).symm
          refine ⟨u, ?_, hk.1, hk.2⟩
          rw [hr, hts1]
          simp [List.find?_append, hf]
        · rename_i hf
          have hts1 : ts1 = ts ++ [t] := (Except.ok.inj hstep).symm
          refine ⟨t, ?_, rfl, rfl⟩
          rw [hr, hts1, List.append_assoc]
          simp [List.find?_append, hf, keyMatch]
      · exact ih h t hmem

/-- C4: when two ranks contribute array tuples that agree on (name,
association) but disagree on element kind or component count, the
collective merge of `GetMetadata` fails; the deterministic merge of the
gathered data makes every participating rank observe the identical outcome,
so the conflict is never silently resolved to one of the two kinds. -/
theorem C4_merge_reports_kind_conflict (gathered : List (List ArrayTup))
    (t1 t2 : ArrayTup) (rank r1 r2 : Nat)
    (h1 : t1 ∈ gathered.flatten) (h2 : t2 ∈ gathered.flatten)
    (hname : t1.name = t2.name) (hassoc : t1.assoc = t2.assoc)
    (hconf : t1.kind ≠ t2.kind ∨ t1.comps ≠ t2.comps) :
    mergeFailed (GetMetadataArrayMerge gathered rank) = true
    ∧ GetMetadataArrayMerge gathered r1 = GetMetadataArrayMerge gathered r2 := by
  refine ⟨?_, rfl⟩
  cases hm : mergeArrayTups gathered with
  | error e => simp [GetMetadataArrayMerge, hm, mergeFailed]
  | ok ts =>
    exfalso
    have hfold : gathered.flatten.foldl insertArrayTup (Except.ok [])
        = Except.ok ts := hm
    obtain ⟨u1, hu1, hk1, hc1⟩ := foldl_insertArrayTup_mem_key hfold t1 h1
    obtain ⟨u2, hu2, hk2, hc2⟩ := foldl_insertArrayTup_mem_key hfold t2 h2
    have hkey : keyMatch t1 = keyMatch t2 := by
      funext u
      simp [keyMatch, hname, hassoc]
    rw [hkey] at hu1
    rw [hu1] at hu2
    obtain rfl := Option.some.inj hu2
    cases hconf with
    | inl hkind => exact hkind (hk1.symm.trans hk2)
    | inr hcomp => exact hcomp (hc1.symm.trans hc2)

/-- Witness for C4 at the spec's example: one rank reports
`("pressure", cell, float64, 1)` and another `("pressure", cell, float32,
1)`; the merge fails and ranks 0 and 1 observe the same outcome. -/
theorem C4_merge_reports_kind_conflict_witness :
    mergeFailed (GetMetadataArrayMerge
        [[⟨"pressure", Assoc.cell, ElemKind.float64, 1⟩],
          [⟨"pressure", Assoc.cell, ElemKind.float32, 1⟩]] 0) = true
    ∧ GetMetadataArrayMerge
        [[⟨"pressure", Assoc.cell, ElemKind.float64, 1⟩],
          [⟨"pressure", Assoc.cell, ElemKind.float32, 1⟩]] 0
      = GetMetadataArrayMerge
        [[⟨"pressure", Assoc.cell, ElemKind.float64, 1⟩],
          [⟨"pressure", Assoc.cell, ElemKind.float32, 1⟩]] 1 :=
  C4_merge_reports_kind_conflict
    [[⟨"pressure", Assoc.cell, ElemKind.float64, 1⟩],
      [⟨"pressure", Assoc.cell, ElemKind.float32, 1⟩]]
    ⟨"pressure", Assoc.cell, ElemKind.float64, 1⟩
    ⟨"pressure", Assoc.cell, ElemKind.float32, 1⟩ 0 0 1
    (by decide) (by decide) rfl rfl (Or.inl (by decide))

end VTKUtils

end sensei
